import Mathlib

/-
Shallow embedding of the clippy needless_pass_by_value lint
(src/clippy_lints/src/needless_pass_by_value.rs).

Host-compiler facts (type queries, trait lookups, source snippets, the HIR
parent map) are external collaborators of the analyzed code; they appear here
as explicit inputs (fields and function-valued parameters).  Machine panics
(`expect`, `assert!`) are modelled with `Except String`.
-/

/- Node identifiers and source spans are opaque to the analysis: they are only
compared for equality and (spans) sorted, so we model both as natural numbers. -/
abbrev NodeId := Nat
abbrev Span := Nat

/- mem_categorization categories, restricted to what the lint inspects:
`Local` roots, the `Downcast`/`Interior` wrappers that get unwrapped, and
`Other` standing for every remaining category (rvalues, statics, upvars,
derefs), which the lint ignores. -/
inductive Categorization where
  | Local (vid : NodeId)
  | Downcast (c : Categorization)
  | Interior (c : Categorization)
  | Other
deriving DecidableEq, Repr

/- unwrap_downcast_or_interior: peel Downcast and Interior projections until
another category is reached (needless_pass_by_value.rs lines 439-448). -/
def unwrap_downcast_or_interior : Categorization → Categorization
  | Categorization.Downcast c => unwrap_downcast_or_interior c
  | Categorization.Interior c => unwrap_downcast_or_interior c
  | c => c

/- The shape of a HIR node as far as non_moving_pat inspects it:
a match-like expression (ExprMatch, carrying the discriminee span: `match`
and desugared `if let`), any other expression, a declaration statement of a
local with an optional initializer span, any other statement, or any other
node kind. -/
inductive HirNode where
  | ExprMatch (discr_span : Span)
  | ExprOther
  | StmtDeclLocal (init_span : Option Span)
  | StmtOther
  | OtherNode
deriving DecidableEq, Repr

/- The external HIR map: tcx.hir().get_parent_node and tcx.hir().find.
The body root is signalled by a node being its own parent. -/
structure WalkEnv where
  parent : NodeId → NodeId
  find : NodeId → Option HirNode

/- The upward ancestor walk of MovedVariablesCtxt::non_moving_pat (lines
356-397), returning the spans it records in walk order.  The source loops
until the self-parent root; termination is enforced here with a fuel bound
(exhausted fuel behaves like reaching the root, an artifact never exercised
by the theorems, which either supply ample fuel or hypotheses).  A local
declaration without an initializer reproduces the panic of the source
(`local.init ... .expect(...)`) as an error. -/
def nonMovingWalk (env : WalkEnv) : Nat → NodeId → Except String (List Span)
  | 0, _ => Except.ok []
  | fuel + 1, id =>
    let parent := env.parent id
    if id = parent then
      Except.ok []
    else
      match env.find parent with
      | some (HirNode.ExprMatch c_span) =>
        match nonMovingWalk env fuel parent with
        | Except.ok rest => Except.ok (c_span :: rest)
        | Except.error e => Except.error e
      | some (HirNode.StmtDeclLocal (some init_span)) =>
        match nonMovingWalk env fuel parent with
        | Except.ok rest => Except.ok (init_span :: rest)
        | Except.error e => Except.error e
      | some (HirNode.StmtDeclLocal none) =>
        Except.error "let stmt without init not caught by match_pat"
      | _ => nonMovingWalk env fuel parent

/- The chain of ancestors visited by the walk (each node whose shape the walk
examines), for stating what the walk records. -/
def ancestorChain (env : WalkEnv) : Nat → NodeId → List NodeId
  | 0, _ => []
  | fuel + 1, id =>
    let parent := env.parent id
    if id = parent then []
    else parent :: ancestorChain env fuel parent

/- The span a visited node contributes to spans_need_deref, if any: the
discriminee span of a match-like expression, or the initializer span of a
local declaration. -/
def nodeRecordedSpan : Option HirNode → Option Span
  | some (HirNode.ExprMatch s) => some s
  | some (HirNode.StmtDeclLocal (some s)) => some s
  | _ => none

/- MovedVariablesCtxt state: the set of moved root bindings and the
binding-to-span multimap spans_need_deref (key present iff at least one span
was recorded for it, matching the entry().or_insert_with().insert() idiom). -/
structure MovedVariablesCtxt where
  moved_vars : List NodeId
  spans_need_deref : List (NodeId × Span)
deriving DecidableEq, Repr

/- MovedVariablesCtxt::move_common (lines 344-350): unwrap the place; if the
root is a local binding, insert it into moved_vars. -/
def move_common (st : MovedVariablesCtxt) (cmt : Categorization) : MovedVariablesCtxt :=
  match unwrap_downcast_or_interior cmt with
  | Categorization.Local vid => { st with moved_vars := st.moved_vars.insert vid }
  | _ => st

/- MovedVariablesCtxt::non_moving_pat (lines 352-399): unwrap the place; if
the root is a local binding, walk the ancestors of the matched pattern and
record every span the walk yields under that binding. -/
def non_moving_pat (env : WalkEnv) (fuel : Nat) (st : MovedVariablesCtxt)
    (matched_pat_id : NodeId) (cmt : Categorization) : Except String MovedVariablesCtxt :=
  match unwrap_downcast_or_interior cmt with
  | Categorization.Local vid =>
    match nonMovingWalk env fuel matched_pat_id with
    | Except.ok spans =>
      Except.ok { st with
        spans_need_deref := st.spans_need_deref ++ spans.map (fun s => (vid, s)) }
    | Except.error e => Except.error e
  | _ => Except.ok st

/- euv::ConsumeMode (Copy or Move; the move reason is irrelevant here). -/
inductive ConsumeMode where
  | Copy
  | Move
deriving DecidableEq, Repr

/- euv::MatchMode. -/
inductive MatchMode where
  | NonBindingMatch
  | BorrowingMatch
  | CopyingMatch
  | MovingMatch
deriving DecidableEq, Repr

/- One callback of the euv::Delegate interface, with the arguments the
delegate implementation actually consumes. -/
inductive UsageEvent where
  | consume (consume_id : NodeId) (consume_span : Span) (cmt : Categorization) (mode : ConsumeMode)
  | matched_pat (pat_id : NodeId) (pat_span : Span) (cmt : Categorization) (mode : MatchMode)
  | consume_pat (pat_id : NodeId) (pat_span : Span) (cmt : Categorization) (mode : ConsumeMode)
  | borrow (cmt : Categorization)
  | mutate (cmt : Categorization)
  | decl_without_init (id : NodeId) (span : Span)
deriving Repr

/- The euv::Delegate implementation for MovedVariablesCtxt (lines 402-437):
consume/consume_pat in Move mode and matched_pat in MovingMatch mode call
move_common; matched_pat in any other mode calls non_moving_pat; borrow,
mutate and decl_without_init do nothing. -/
def processEvent (env : WalkEnv) (fuel : Nat) (st : MovedVariablesCtxt) :
    UsageEvent → Except String MovedVariablesCtxt
  | UsageEvent.consume _ _ cmt mode =>
    match mode with
    | ConsumeMode.Move => Except.ok (move_common st cmt)
    | ConsumeMode.Copy => Except.ok st
  | UsageEvent.matched_pat pid _ cmt mode =>
    match mode with
    | MatchMode.MovingMatch => Except.ok (move_common st cmt)
    | _ => non_moving_pat env fuel st pid cmt
  | UsageEvent.consume_pat _ _ cmt mode =>
    match mode with
    | ConsumeMode.Move => Except.ok (move_common st cmt)
    | ConsumeMode.Copy => Except.ok st
  | UsageEvent.borrow _ => Except.ok st
  | UsageEvent.mutate _ => Except.ok st
  | UsageEvent.decl_without_init _ _ => Except.ok st

/- Running the delegate over the event stream the traversal engine produces
for one body (the ExprUseVisitor::consume_body call, lines 148-158). -/
def runTracker (env : WalkEnv) (fuel : Nat) (events : List UsageEvent) :
    Except String MovedVariablesCtxt :=
  events.foldlM (fun st e => processEvent env fuel st e) ⟨[], []⟩

/- One elaborated trait predicate, carrying the facts check_fn reads off it:
whether the original predicate was global, whether it is a Trait predicate,
the trait def-id, the has_escaping_bound_vars flag, the self type (types are
opaque ids), and the externally answered query
implements_trait(mk_imm_ref ty, def_id, ty_params) used by the
all-borrowable rule. -/
structure RawPred where
  is_global : Bool
  is_trait_pred : Bool
  def_id : Nat
  has_escaping_bound_vars : Bool
  self_ty : Nat
  ref_implements : Bool
deriving DecidableEq, Repr

/- The pred list built in check_fn (lines 131-144): elaborated predicates
(an external input), keeping non-global Trait predicates that are neither
the Sized bound nor have escaping bound vars. -/
def buildPreds (sized_trait : Nat) (raws : List RawPred) : List RawPred :=
  (raws.filter (fun p => !p.is_global)).filter
    (fun p => p.is_trait_pred && !(p.def_id = sized_trait || p.has_escaping_bound_vars))

/- The per-parameter restriction of the pred list to bounds whose subject is
exactly the parameter type (lines 183-186). -/
def paramPreds (preds : List RawPred) (ty : Nat) : List RawPred :=
  preds.filter (fun t => t.self_ty = ty)

/- implements_borrow_trait (line 189): some applicable bound is the Borrow
trait. -/
def implements_borrow_trait (preds : List RawPred) (ty borrow_trait : Nat) : Bool :=
  (paramPreds preds ty).any (fun t => t.def_id = borrow_trait)

/- all_borrowable_trait (lines 190-201): the applicable bounds are non-empty
and every one of them is still implemented by an immutable reference to the
type. -/
def all_borrowable_trait (preds : List RawPred) (ty : Nat) : Bool :=
  !(paramPreds preds ty).isEmpty && (paramPreds preds ty).all (fun t => t.ref_implements)

/- hir::BindingAnnotation, named BindingMode here. -/
inductive BindingMode where
  | Unannotated
  | Mutable
  | Ref
  | RefMut
deriving DecidableEq, Repr

/- The parameter pattern as far as check_fn inspects it: a plain identifier
binding (with mode, canonical id and identifier text) or anything else. -/
inductive PatKind where
  | Binding (mode : BindingMode) (canonical_id : NodeId) (ident : String)
  | Other
deriving DecidableEq, Repr

/- Whether the pattern is an identifier binding spelled `self` (the test of
lines 170-175). -/
def isSelfIdent : PatKind → Bool
  | PatKind.Binding _ _ ident => ident = "self"
  | PatKind.Other => false

/- One declared parameter: the zip of decl.inputs, fn_sig.inputs() and
body.arguments (line 163), together with the externally answered per-type
queries check_fn makes about it.
  is_self               : utils::is_self(arg)
  ty_is_mutable_pointer : ty.is_mutable_pointer()
  ty_is_copy            : is_copy(cx, ty)
  implements_trait_nil  : fun t => implements_trait(cx, ty, t, [])
  is_vec / is_string    : match_type against the Vec / String paths
  vec_clone_spans       : get_spans(.., [(clone, .to_owned())])
  vec_elem_snippet      : the element-type snippet extracted from the
                          written Vec path type, when that extraction works
  string_clone_spans    : get_spans(.., [(clone, .to_string()), (as_str, )])
  copy_help_span        : the span of the locally-defined ADT when
                          can_type_implement_copy holds (lines 222-228) -/
structure Param where
  input_span : Span
  ty : Nat
  is_self : Bool
  ty_is_mutable_pointer : Bool
  ty_is_copy : Bool
  implements_trait_nil : Nat → Bool
  pat : PatKind
  is_vec : Bool
  is_string : Bool
  vec_clone_spans : Option (List (Span × String))
  vec_elem_snippet : Option String
  string_clone_spans : Option (List (Span × String))
  copy_help_span : Option Span

/- One suggested textual edit: a target span and its replacement text. -/
structure Edit where
  span : Span
  text : String
deriving DecidableEq, Repr

/- One emitted diagnostic: primary span, the fixed message, the optional
"consider marking this type as Copy" help span, and the suggested edits. -/
structure Diagnostic where
  span : Span
  msg : String
  copy_help : Option Span
  edits : List Edit
deriving DecidableEq, Repr

/- intravisit::FnKind as far as check_fn inspects it: a free function (with
its ABI-is-Rust flag and whether a proc_macro_derive attribute is present),
a method, or a closure (the catch-all return arm). -/
inductive FnKind where
  | ItemFn (abi_is_rust : Bool) (has_proc_macro_derive : Bool)
  | Method
  | Closure
deriving DecidableEq, Repr

/- The per-function context check_fn receives from the host: the macro test
on the function span, the function kind, whether the parent item is a
non-inherent impl or a trait (lines 110-116), the six external trait
lookups guarded by need!, the function span, and the source-snippet query. -/
structure FnCtxt where
  in_macro : Bool
  kind : FnKind
  parent_excluded : Bool
  borrow_trait : Option Nat
  fn_trait : Option Nat
  fn_once_trait : Option Nat
  fn_mut_trait : Option Nat
  range_argument_trait : Option Nat
  sized_trait : Option Nat
  span : Span
  snippet : Span → String

/- spans_need_deref.get(&canonical_id) (line 230): the spans recorded for the
binding, None when none were (a key exists in the map iff at least one span
was inserted for it). -/
def lookupDerefSpans (deref : List (NodeId × Span)) (cid : NodeId) : Option (List Span) :=
  let ss := (deref.filter (fun p => p.1 = cid)).map (fun p => p.2)
  if ss.isEmpty then none else some ss

/- The edit computation of the sugg closure (lines 221-312).  The Vec
specialization (231-269) and the String specialization (271-297) each end in
`assert!(deref_span.is_none())`, a panic in every build profile, modelled as
an error; the generic fallback (299-311) adds a reference at the parameter
span and a dereference at every recorded span, sorted by span. -/
def suggEdits (ctx : FnCtxt) (p : Param) (deref_span : Option (List Span)) :
    Except String (List Edit) :=
  match p.is_vec, p.vec_clone_spans, p.vec_elem_snippet with
  | true, some clone_spans, some elem =>
    let edits := { span := p.input_span, text := "&[" ++ elem ++ "]" } ::
      clone_spans.map (fun cs => { span := cs.1, text := cs.2 : Edit })
    if deref_span.isNone then Except.ok edits
    else Except.error "assertion failed: deref_span.is_none()"
  | _, _, _ =>
    match p.is_string, p.string_clone_spans with
    | true, some clone_spans =>
      let edits := { span := p.input_span, text := "&str" } ::
        clone_spans.map (fun cs => { span := cs.1, text := cs.2 : Edit })
      if deref_span.isNone then Except.ok edits
      else Except.error "assertion failed: deref_span.is_none()"
    | _, _ =>
      let base : List Edit := [{ span := p.input_span, text := "&" ++ ctx.snippet p.input_span }]
      match deref_span with
      | some ds =>
        Except.ok (List.insertionSort (fun a b => a.span ≤ b.span)
          (base ++ ds.map (fun s => { span := s, text := "*" ++ ctx.snippet s : Edit })))
      | none => Except.ok base

/- span_lint_and_then for one parameter: the fixed message at the parameter
span, the optional Copy help, and the edits the sugg closure produced. -/
def suggDiag (ctx : FnCtxt) (p : Param) (canonical_id : NodeId)
    (deref : List (NodeId × Span)) : Except String Diagnostic :=
  match suggEdits ctx p (lookupDerefSpans deref canonical_id) with
  | Except.ok edits =>
    Except.ok { span := p.input_span,
                msg := "this argument is passed by value, but not consumed in the function body",
                copy_help := p.copy_help_span,
                edits := edits }
  | Except.error e => Except.error e

/- What the parameter loop does with one parameter: abort the whole function
(the early return), skip to the next parameter, or flag it. -/
inductive ParamOutcome where
  | abort
  | skip
  | flag (d : Diagnostic)
deriving DecidableEq, Repr

/- The body of the parameter loop (lines 163-322) for the parameter at
position idx: return when the parameter span equals the function span;
continue for an index-0 `self` binding; then the if_chain of eligibility
conditions (205-214), the mutable-binding-mode continue (216-218), and the
diagnostic emission. -/
def checkParam (ctx : FnCtxt) (borrow_trait : Nat) (whitelist : List Nat)
    (preds : List RawPred) (moved_vars : List NodeId) (deref : List (NodeId × Span))
    (idx : Nat) (p : Param) : Except String ParamOutcome :=
  if ctx.span = p.input_span then Except.ok ParamOutcome.abort
  else if idx = 0 && isSelfIdent p.pat then Except.ok ParamOutcome.skip
  else
    match p.pat with
    | PatKind.Binding mode canonical_id _ =>
      if !p.is_self && !p.ty_is_mutable_pointer && !p.ty_is_copy
          && !(whitelist.any (fun t => p.implements_trait_nil t))
          && !implements_borrow_trait preds p.ty borrow_trait
          && !all_borrowable_trait preds p.ty
          && !(moved_vars.contains canonical_id) then
        if mode = BindingMode.Mutable || mode = BindingMode.RefMut then
          Except.ok ParamOutcome.skip
        else
          match suggDiag ctx p canonical_id deref with
          | Except.ok d => Except.ok (ParamOutcome.flag d)
          | Except.error e => Except.error e
      else Except.ok ParamOutcome.skip
    | PatKind.Other => Except.ok ParamOutcome.skip

/- The parameter loop itself: left to right, emitting flagged diagnostics in
order, stopping the whole function at an abort outcome but keeping the
diagnostics already emitted for earlier parameters. -/
def checkLoop (ctx : FnCtxt) (borrow_trait : Nat) (whitelist : List Nat)
    (preds : List RawPred) (moved_vars : List NodeId) (deref : List (NodeId × Span)) :
    Nat → List Param → Except String (List Diagnostic)
  | _, [] => Except.ok []
  | idx, p :: rest =>
    match checkParam ctx borrow_trait whitelist preds moved_vars deref idx p with
    | Except.error e => Except.error e
    | Except.ok ParamOutcome.abort => Except.ok []
    | Except.ok ParamOutcome.skip =>
      checkLoop ctx borrow_trait whitelist preds moved_vars deref (idx + 1) rest
    | Except.ok (ParamOutcome.flag d) =>
      match checkLoop ctx borrow_trait whitelist preds moved_vars deref (idx + 1) rest with
      | Except.error e => Except.error e
      | Except.ok ds => Except.ok (d :: ds)

/- check_fn (lines 81-324), with the tracker result supplied as input (the
ExprUseVisitor run over the body is external): the macro test, the function
kind tests, the non-inherent-impl/trait parent test, the six need! trait
lookups (each None aborts the whole function silently), predicate
elaboration and the parameter loop. -/
def check_fn (ctx : FnCtxt) (raws : List RawPred) (params : List Param)
    (moved_vars : List NodeId) (deref : List (NodeId × Span)) :
    Except String (List Diagnostic) :=
  if ctx.in_macro then Except.ok []
  else
    let kind_ok := match ctx.kind with
      | FnKind.ItemFn abi_is_rust has_derive => abi_is_rust && !has_derive
      | FnKind.Method => true
      | FnKind.Closure => false
    if !kind_ok then Except.ok []
    else if ctx.parent_excluded then Except.ok []
    else
      match ctx.borrow_trait, ctx.fn_trait, ctx.fn_once_trait, ctx.fn_mut_trait,
          ctx.range_argument_trait, ctx.sized_trait with
      | some borrow, some ft, some fo, some fm, some ra, some sized =>
        checkLoop ctx borrow [ft, fo, fm, ra] (buildPreds sized raws) moved_vars deref 0 params
      | _, _, _, _, _, _ => Except.ok []

/- An event whose place the delegate attributes to binding b as a move:
a consume or consume_pat in Move mode, or a matched_pat in MovingMatch mode,
whose place unwraps to the local b. -/
def isMoveOf (e : UsageEvent) (b : NodeId) : Prop :=
  match e with
  | UsageEvent.consume _ _ cmt mode =>
    mode = ConsumeMode.Move ∧ unwrap_downcast_or_interior cmt = Categorization.Local b
  | UsageEvent.matched_pat _ _ cmt mode =>
    mode = MatchMode.MovingMatch ∧ unwrap_downcast_or_interior cmt = Categorization.Local b
  | UsageEvent.consume_pat _ _ cmt mode =>
    mode = ConsumeMode.Move ∧ unwrap_downcast_or_interior cmt = Categorization.Local b
  | _ => False

def envW : WalkEnv := ⟨fun n => n, fun _ => none⟩

def ctxW : FnCtxt :=
  { in_macro := false, kind := FnKind.Method, parent_excluded := false,
    borrow_trait := some 100, fn_trait := some 101, fn_once_trait := some 102,
    fn_mut_trait := some 103, range_argument_trait := some 104, sized_trait := some 105,
    span := 0, snippet := fun _ => "x" }

def pW : Param :=
  { input_span := 1, ty := 0, is_self := false, ty_is_mutable_pointer := false,
    ty_is_copy := false, implements_trait_nil := fun _ => false,
    pat := PatKind.Binding BindingMode.Unannotated 3 "v",
    is_vec := false, is_string := false, vec_clone_spans := none,
    vec_elem_snippet := none, string_clone_spans := none, copy_help_span := none }

def pSelf : Param := { pW with pat := PatKind.Binding BindingMode.Unannotated 9 "self" }

def pTuple : Param := { pW with pat := PatKind.Other }

def pB : Param := { pW with input_span := 0, pat := PatKind.Binding BindingMode.Unannotated 6 "w" }

def env2 : WalkEnv :=
  ⟨fun _ => 1, fun n => if n = 1 then some (HirNode.StmtDeclLocal none) else none⟩

def env3 : WalkEnv :=
  ⟨fun n => if n = 0 then 1 else 2,
   fun n => if n = 1 then some (HirNode.ExprMatch 10) else
     if n = 2 then some (HirNode.ExprMatch 20) else none⟩

def envM : WalkEnv :=
  ⟨fun _ => 1, fun n => if n = 1 then some (HirNode.ExprMatch 10) else none⟩

def pVec : Param :=
  { pW with is_vec := true, vec_clone_spans := some [], vec_elem_snippet := some "i32" }

/- An event whose place unwraps to the local binding b (the only way any
handler can attribute state to b). -/
def targetsBinding (e : UsageEvent) (b : NodeId) : Prop :=
  match e with
  | UsageEvent.consume _ _ cmt _ => unwrap_downcast_or_interior cmt = Categorization.Local b
  | UsageEvent.matched_pat _ _ cmt _ => unwrap_downcast_or_interior cmt = Categorization.Local b
  | UsageEvent.consume_pat _ _ cmt _ => unwrap_downcast_or_interior cmt = Categorization.Local b
  | UsageEvent.borrow cmt => unwrap_downcast_or_interior cmt = Categorization.Local b
  | UsageEvent.mutate cmt => unwrap_downcast_or_interior cmt = Categorization.Local b
  | UsageEvent.decl_without_init _ _ => False

/- Whether the event is one of the two pure-observation callbacks. -/
def isBorrowOrMutate : UsageEvent → Prop
  | UsageEvent.borrow _ => True
  | UsageEvent.mutate _ => True
  | _ => False

/- The binding b left no trace in the tracker state: it is not in the moved
set and owns no deref spans. -/
def untouched (b : NodeId) (st : MovedVariablesCtxt) : Prop :=
  b ∉ st.moved_vars ∧ ∀ s, (b, s) ∉ st.spans_need_deref

theorem mem_move_common_self (st : MovedVariablesCtxt) (cmt : Categorization) (b : NodeId)
    (h : unwrap_downcast_or_interior cmt = Categorization.Local b) :
    b ∈ (move_common st cmt).moved_vars := by
  unfold move_common
  rw [h]
  exact List.mem_insert_self b st.moved_vars

theorem mem_move_common_mono (st : MovedVariablesCtxt) (cmt : Categorization) (b : NodeId)
    (h : b ∈ st.moved_vars) : b ∈ (move_common st cmt).moved_vars := by
  unfold move_common
  match unwrap_downcast_or_interior cmt with
  | Categorization.Local vid => exact List.mem_insert_of_mem h
  | Categorization.Downcast c => exact h
  | Categorization.Interior c => exact h
  | Categorization.Other => exact h

theorem non_moving_pat_moved_vars (env : WalkEnv) (fuel : Nat) (st st2 : MovedVariablesCtxt)
    (pid : NodeId) (cmt : Categorization)
    (h : non_moving_pat env fuel st pid cmt = Except.ok st2) :
    st2.moved_vars = st.moved_vars := by
  unfold non_moving_pat at h
  split at h
  · split at h
    · cases h; rfl
    · cases h
  · cases h; rfl

theorem processEvent_moved_mono (env : WalkEnv) (fuel : Nat) (st st2 : MovedVariablesCtxt)
    (e : UsageEvent) (b : NodeId)
    (h : processEvent env fuel st e = Except.ok st2) (hb : b ∈ st.moved_vars) :
    b ∈ st2.moved_vars := by
  cases e with
  | consume i s cmt mode =>
    cases mode with
    | Move => cases h; exact mem_move_common_mono st cmt b hb
    | Copy => cases h; exact hb
  | matched_pat i s cmt mode =>
    cases mode with
    | MovingMatch => cases h; exact mem_move_common_mono st cmt b hb
    | NonBindingMatch =>
      rw [non_moving_pat_moved_vars env fuel st st2 i cmt h]; exact hb
    | BorrowingMatch =>
      rw [non_moving_pat_moved_vars env fuel st st2 i cmt h]; exact hb
    | CopyingMatch =>
      rw [non_moving_pat_moved_vars env fuel st st2 i cmt h]; exact hb
  | consume_pat i s cmt mode =>
    cases mode with
    | Move => cases h; exact mem_move_common_mono st cmt b hb
    | Copy => cases h; exact hb
  | borrow cmt => cases h; exact hb
  | mutate cmt => cases h; exact hb
  | decl_without_init i s => cases h; exact hb

theorem processEvent_move_adds (env : WalkEnv) (fuel : Nat) (st st2 : MovedVariablesCtxt)
    (e : UsageEvent) (b : NodeId)
    (hm : isMoveOf e b) (h : processEvent env fuel st e = Except.ok st2) :
    b ∈ st2.moved_vars := by
  cases e with
  | consume i s cmt mode =>
    obtain ⟨hmode, hcat⟩ := hm
    subst hmode
    cases h
    exact mem_move_common_self st cmt b hcat
  | matched_pat i s cmt mode =>
    obtain ⟨hmode, hcat⟩ := hm
    subst hmode
    cases h
    exact mem_move_common_self st cmt b hcat
  | consume_pat i s cmt mode =>
    obtain ⟨hmode, hcat⟩ := hm
    subst hmode
    cases h
    exact mem_move_common_self st cmt b hcat
  | borrow cmt => exact absurd hm not_false
  | mutate cmt => exact absurd hm not_false
  | decl_without_init i s => exact absurd hm not_false

theorem foldTracker_moved_mono (env : WalkEnv) (fuel : Nat) (b : NodeId) :
    ∀ (events : List UsageEvent) (st st2 : MovedVariablesCtxt),
    List.foldlM (fun s e => processEvent env fuel s e) st events = Except.ok st2 →
    b ∈ st.moved_vars → b ∈ st2.moved_vars := by
  intro events
  induction events with
  | nil => intro st st2 h hb; cases h; exact hb
  | cons e rest ih =>
    intro st st2 h hb
    rw [List.foldlM_cons] at h
    cases hstep : processEvent env fuel st e with
    | ok st1 =>
      rw [hstep] at h
      exact ih st1 st2 h (processEvent_moved_mono env fuel st st1 e b hstep hb)
    | error msg => rw [hstep] at h; cases h

theorem foldTracker_moved_sound (env : WalkEnv) (fuel : Nat) (e : UsageEvent) (b : NodeId)
    (hm : isMoveOf e b) :
    ∀ (events : List UsageEvent) (st st2 : MovedVariablesCtxt),
    List.foldlM (fun s ev => processEvent env fuel s ev) st events = Except.ok st2 →
    e ∈ events → b ∈ st2.moved_vars := by
  intro events
  induction events with
  | nil => intro st st2 h hmem; cases hmem
  | cons a rest ih =>
    intro st st2 h hmem
    rw [List.foldlM_cons] at h
    cases hstep : processEvent env fuel st a with
    | ok st1 =>
      rw [hstep] at h
      rcases List.mem_cons.mp hmem with heq | htail
      · rw [heq] at hm
        exact foldTracker_moved_mono env fuel b rest st1 st2 h
          (processEvent_move_adds env fuel st st1 a b hm hstep)
      · exact ih st1 st2 h htail
    | error msg => rw [hstep] at h; cases h

theorem checkParam_no_flag_of_moved (ctx : FnCtxt) (borrow : Nat) (wl : List Nat)
    (preds : List RawPred) (moved_vars : List NodeId) (deref : List (NodeId × Span))
    (idx : Nat) (p : Param) (mode : BindingMode) (b : NodeId) (ident : String)
    (d : Diagnostic) (hpat : p.pat = PatKind.Binding mode b ident)
    (hb : b ∈ moved_vars) :
    checkParam ctx borrow wl preds moved_vars deref idx p ≠ Except.ok (ParamOutcome.flag d) := by
  intro hflag
  have hcontains : moved_vars.contains b = true := List.elem_eq_true_of_mem hb
  unfold checkParam at hflag
  split at hflag
  · cases hflag
  · split at hflag
    · cases hflag
    · rw [hpat] at hflag
      simp only [hcontains, Bool.not_true, Bool.and_false, Bool.false_eq_true,
        if_false] at hflag
      cases hflag

/-- Claim C1: for every analyzed function, if the root binding of a by-value parameter is
the target of at least one Move or MatchingMove usage event anywhere in the body
(after unwrapping downcast/interior projections to the root local binding), then
that binding appears in MovedVariables and no diagnostic is emitted for that
parameter. -/
theorem C1_moved_set_soundness (env : WalkEnv) (fuel : Nat) (events : List UsageEvent)
    (st : MovedVariablesCtxt) (e : UsageEvent) (b : NodeId)
    (hrun : runTracker env fuel events = Except.ok st)
    (hmem : e ∈ events) (hmove : isMoveOf e b) :
    b ∈ st.moved_vars ∧
    ∀ (ctx : FnCtxt) (borrow : Nat) (wl : List Nat) (preds : List RawPred)
      (deref : List (NodeId × Span)) (idx : Nat) (p : Param) (mode : BindingMode)
      (ident : String) (d : Diagnostic),
      p.pat = PatKind.Binding mode b ident →
      checkParam ctx borrow wl preds st.moved_vars deref idx p ≠
        Except.ok (ParamOutcome.flag d) := by
  have hb : b ∈ st.moved_vars :=
    foldTracker_moved_sound env fuel e b hmove events ⟨[], []⟩ st hrun hmem
  exact ⟨hb, fun ctx borrow wl preds deref idx p mode ident d hpat =>
    checkParam_no_flag_of_moved ctx borrow wl preds st.moved_vars deref idx p mode b
      ident d hpat hb⟩

/-- Witness for C1: a one-event stream moving binding 3 through an interior
projection puts 3 into the moved set, and the parameter bound to 3 is not
flagged. -/
theorem C1_moved_set_soundness_witness :
    3 ∈ (MovedVariablesCtxt.mk [3] []).moved_vars ∧
    checkParam ctxW 100 [] [] [3] [] 1 pW ≠
      Except.ok (ParamOutcome.flag (Diagnostic.mk 0 "" none [])) := by
  have h := C1_moved_set_soundness envW 1
    [UsageEvent.consume 0 0 (Categorization.Interior (Categorization.Local 3)) ConsumeMode.Move]
    ⟨[3], []⟩
    (UsageEvent.consume 0 0 (Categorization.Interior (Categorization.Local 3)) ConsumeMode.Move)
    3 rfl (List.mem_singleton.mpr rfl) ⟨rfl, rfl⟩
  exact ⟨h.1, h.2 ctxW 100 [] [] [] 1 pW BindingMode.Unannotated "v"
    (Diagnostic.mk 0 "" none []) rfl⟩

/-- Claim C2: for every method, the first declared parameter (index 0) whose
pattern binds the identifier `self` is never flagged, regardless of its type or
of how the body uses it. -/
theorem C2_receiver_never_flagged (ctx : FnCtxt) (borrow : Nat) (wl : List Nat)
    (preds : List RawPred) (moved_vars : List NodeId) (deref : List (NodeId × Span))
    (p : Param) (mode : BindingMode) (cid : NodeId) (d : Diagnostic)
    (hpat : p.pat = PatKind.Binding mode cid "self") :
    checkParam ctx borrow wl preds moved_vars deref 0 p ≠
      Except.ok (ParamOutcome.flag d) := by
  intro hflag
  have hsel : isSelfIdent p.pat = true := by rw [hpat]; simp [isSelfIdent]
  unfold checkParam at hflag
  split at hflag
  · cases hflag
  · simp [hsel] at hflag

/-- Witness for C2 at a concrete receiver parameter. -/
theorem C2_receiver_never_flagged_witness :
    checkParam ctxW 100 [] [] [] [] 0 pSelf ≠
      Except.ok (ParamOutcome.flag (Diagnostic.mk 0 "" none [])) :=
  C2_receiver_never_flagged ctxW 100 [] [] [] [] pSelf BindingMode.Unannotated 9
    (Diagnostic.mk 0 "" none []) rfl

/-- Claim C4: for every parameter whose type has zero applicable trait bounds,
the all-borrowable exemption evaluates to false, so the absence of constraints
by itself never exempts the parameter from flagging. -/
theorem C4_no_bounds_not_all_borrowable (preds : List RawPred) (ty : Nat)
    (h : paramPreds preds ty = []) :
    all_borrowable_trait preds ty = false := by
  unfold all_borrowable_trait
  rw [h]
  rfl

/-- Witness for C4 at an empty bound list. -/
theorem C4_no_bounds_not_all_borrowable_witness :
    all_borrowable_trait [] 0 = false :=
  C4_no_bounds_not_all_borrowable [] 0 rfl

/-- Claim C10: a parameter whose pattern is not a plain identifier binding (for
example a destructuring tuple or struct pattern) is never flagged, regardless of
its type or of how the body uses it. -/
theorem C10_destructured_never_flagged (ctx : FnCtxt) (borrow : Nat) (wl : List Nat)
    (preds : List RawPred) (moved_vars : List NodeId) (deref : List (NodeId × Span))
    (idx : Nat) (p : Param) (d : Diagnostic)
    (hpat : p.pat = PatKind.Other) :
    checkParam ctx borrow wl preds moved_vars deref idx p ≠
      Except.ok (ParamOutcome.flag d) := by
  intro hflag
  unfold checkParam at hflag
  split at hflag
  · cases hflag
  · split at hflag
    · cases hflag
    · rw [hpat] at hflag
      simp at hflag

/-- Witness for C10 at a concrete destructuring-pattern parameter. -/
theorem C10_destructured_never_flagged_witness :
    checkParam ctxW 100 [] [] [] [] 1 pTuple ≠
      Except.ok (ParamOutcome.flag (Diagnostic.mk 0 "" none [])) :=
  C10_destructured_never_flagged ctxW 100 [] [] [] [] 1 pTuple
    (Diagnostic.mk 0 "" none []) rfl

/-- Claim C8: for every function, if any required external trait lookup (the
Borrow trait, the Fn/FnOnce/FnMut whitelist traits, the range-argument trait,
or the Sized trait) returns not-found, the analysis of the whole function is skipped
and no diagnostic is emitted for any of its parameters. -/
theorem C8_missing_trait_lookup_skips (ctx : FnCtxt) (raws : List RawPred)
    (params : List Param) (moved_vars : List NodeId) (deref : List (NodeId × Span))
    (h : ctx.borrow_trait = none ∨ ctx.fn_trait = none ∨ ctx.fn_once_trait = none ∨
      ctx.fn_mut_trait = none ∨ ctx.range_argument_trait = none ∨
      ctx.sized_trait = none) :
    check_fn ctx raws params moved_vars deref = Except.ok [] := by
  simp only [check_fn]
  split
  · rfl
  · split
    · rfl
    · split
      · rfl
      · split
        · rcases h with h | h | h | h | h | h <;> simp_all
        · rfl

/-- Witness for C8: a context whose range-argument trait lookup failed emits
nothing. -/
theorem C8_missing_trait_lookup_skips_witness :
    check_fn { ctxW with range_argument_trait := none } [] [pW] [] [] =
      Except.ok [] :=
  C8_missing_trait_lookup_skips { ctxW with range_argument_trait := none } [] [pW] [] []
    (Or.inr (Or.inr (Or.inr (Or.inr (Or.inl rfl)))))

/-- Counterexample to claim C9 as stated: in this function the second
parameter span coincides with the function span (both 0), yet a diagnostic is
still emitted for the first parameter, because the coincidence test sits inside
the left-to-right parameter loop and only aborts from the offending parameter
onwards. -/
theorem C9_counterexample :
    pB.input_span = ctxW.span ∧
    check_fn ctxW [] [pW, pB] [] [] =
      Except.ok [Diagnostic.mk 1
        "this argument is passed by value, but not consumed in the function body"
        none [Edit.mk 1 "&x"]] :=
  ⟨rfl, rfl⟩

/-- Claim C9 (amended): the analysis is aborted at the first parameter, in
declaration order, whose span coincides exactly with the function span: that
parameter and everything after it produce no diagnostics (the result does not
depend on the parameters after it), but parameters before it may already have
been flagged. -/
theorem C9_abort_from_coinciding_param (ctx : FnCtxt) (borrow : Nat) (wl : List Nat)
    (preds : List RawPred) (moved_vars : List NodeId) (deref : List (NodeId × Span))
    (p : Param) (hp : ctx.span = p.input_span) :
    ∀ (ps rest : List Param) (idx : Nat),
    checkLoop ctx borrow wl preds moved_vars deref idx (ps ++ p :: rest) =
      checkLoop ctx borrow wl preds moved_vars deref idx (ps ++ [p]) := by
  intro ps
  induction ps with
  | nil =>
    intro rest idx
    have habort : checkParam ctx borrow wl preds moved_vars deref idx p =
        Except.ok ParamOutcome.abort := by
      unfold checkParam
      rw [if_pos hp]
    simp only [List.nil_append, checkLoop, habort]
  | cons q ps ih =>
    intro rest idx
    simp only [List.cons_append, checkLoop]
    split
    · rfl
    · rfl
    · exact ih rest (idx + 1)
    · simp only [List.append_eq]
      rw [ih rest (idx + 1)]

/-- Witness for C9 (amended) at a concrete parameter list: everything after the
coinciding parameter is irrelevant to the result. -/
theorem C9_abort_from_coinciding_param_witness :
    checkLoop ctxW 100 [] [] [] [] 0 [pW, pB, pTuple] =
      checkLoop ctxW 100 [] [] [] [] 0 [pW, pB] :=
  C9_abort_from_coinciding_param ctxW 100 [] [] [] [] pB rfl [pW] [pTuple] 0

theorem nonMovingWalk_characterization (env : WalkEnv) :
    ∀ (fuel : Nat) (id : NodeId),
    (∀ n ∈ ancestorChain env fuel id, env.find n ≠ some (HirNode.StmtDeclLocal none)) →
    nonMovingWalk env fuel id =
      Except.ok ((ancestorChain env fuel id).filterMap
        (fun n => nodeRecordedSpan (env.find n))) := by
  intro fuel
  induction fuel with
  | zero => intro id h; rfl
  | succ fuel ih =>
    intro id h
    by_cases hp : id = env.parent id
    · simp only [nonMovingWalk, ancestorChain, if_pos hp]
      rfl
    · have hchain : ancestorChain env (fuel + 1) id =
          env.parent id :: ancestorChain env fuel (env.parent id) := by
        simp only [ancestorChain, if_neg hp]
      have hhead : env.find (env.parent id) ≠ some (HirNode.StmtDeclLocal none) :=
        h (env.parent id) (by rw [hchain]; exact List.mem_cons_self _ _)
      have htail : ∀ n ∈ ancestorChain env fuel (env.parent id),
          env.find n ≠ some (HirNode.StmtDeclLocal none) := by
        intro n hn
        exact h n (by rw [hchain]; exact List.mem_cons_of_mem _ hn)
      have hrec := ih (env.parent id) htail
      rw [hchain]
      simp only [nonMovingWalk, if_neg hp]
      cases hf : env.find (env.parent id) with
      | none => simp [hf, hrec, nodeRecordedSpan, List.filterMap_cons]
      | some node =>
        cases node with
        | ExprMatch s => simp [hf, hrec, nodeRecordedSpan, List.filterMap_cons]
        | ExprOther => simp [hf, hrec, nodeRecordedSpan, List.filterMap_cons]
        | StmtDeclLocal oinit =>
          cases oinit with
          | none => exact absurd hf hhead
          | some s => simp [hf, hrec, nodeRecordedSpan, List.filterMap_cons]
        | StmtOther => simp [hf, hrec, nodeRecordedSpan, List.filterMap_cons]
        | OtherNode => simp [hf, hrec, nodeRecordedSpan, List.filterMap_cons]

theorem non_moving_pat_total (env : WalkEnv) (fuel : Nat) (st : MovedVariablesCtxt)
    (pid : NodeId) (cmt : Categorization)
    (hsafe : ∀ n, env.find n ≠ some (HirNode.StmtDeclLocal none)) :
    ∃ st2, non_moving_pat env fuel st pid cmt = Except.ok st2 := by
  unfold non_moving_pat
  cases hcat : unwrap_downcast_or_interior cmt with
  | Local vid =>
    simp only [hcat]
    rw [nonMovingWalk_characterization env fuel pid (fun n _ => hsafe n)]
    exact ⟨_, rfl⟩
  | Downcast c => simp only [hcat]; exact ⟨st, rfl⟩
  | Interior c => simp only [hcat]; exact ⟨st, rfl⟩
  | Other => simp only [hcat]; exact ⟨st, rfl⟩

/-- Claim C5 (amended): every event handler of the Usage Tracker returns
normally on every event, PROVIDED the ancestor walk meets no variable
declaration without an initializer; at such a declaration the NonMovingMatch
handler panics (the expect at line 389) instead of degrading to a missing
entry, so the never-fails claim does not extend to that input. -/
theorem C5_handlers_never_fail (env : WalkEnv) (fuel : Nat)
    (hsafe : ∀ n, env.find n ≠ some (HirNode.StmtDeclLocal none)) :
    ∀ (st : MovedVariablesCtxt) (e : UsageEvent),
    ∃ st2, processEvent env fuel st e = Except.ok st2 := by
  intro st e
  cases e with
  | consume i s cmt mode =>
    cases mode with
    | Move => exact ⟨_, rfl⟩
    | Copy => exact ⟨_, rfl⟩
  | matched_pat i s cmt mode =>
    cases mode with
    | MovingMatch => exact ⟨_, rfl⟩
    | NonBindingMatch => exact non_moving_pat_total env fuel st i cmt hsafe
    | BorrowingMatch => exact non_moving_pat_total env fuel st i cmt hsafe
    | CopyingMatch => exact non_moving_pat_total env fuel st i cmt hsafe
  | consume_pat i s cmt mode =>
    cases mode with
    | Move => exact ⟨_, rfl⟩
    | Copy => exact ⟨_, rfl⟩
  | borrow cmt => exact ⟨st, rfl⟩
  | mutate cmt => exact ⟨st, rfl⟩
  | decl_without_init i s => exact ⟨st, rfl⟩

/-- Counterexample to claim C5 as stated: a NonMovingMatch event whose ancestor
walk meets a variable declaration without an initializer makes the handler
fail (the source panics through the expect at line 389) instead of recording a
span or silently recording nothing. -/
theorem C5_counterexample :
    processEvent env2 5 ⟨[], []⟩
      (UsageEvent.matched_pat 0 0 (Categorization.Local 7) MatchMode.NonBindingMatch) =
      Except.error "let stmt without init not caught by match_pat" := by
  rfl

/-- Witness for C5 (amended) at a concrete environment with no declarations and
a NonMovingMatch event. -/
theorem C5_handlers_never_fail_witness :
    ∃ st2, processEvent envW 3 ⟨[], []⟩
      (UsageEvent.matched_pat 0 0 (Categorization.Local 1) MatchMode.NonBindingMatch) =
      Except.ok st2 :=
  C5_handlers_never_fail envW 3 (fun _ h => Option.noConfusion h) ⟨[], []⟩
    (UsageEvent.matched_pat 0 0 (Categorization.Local 1) MatchMode.NonBindingMatch)

/-- Claim C6 (amended): for a NonMovingMatch event whose place root resolves to
a local binding, the ancestor chain of the matched pattern is walked all the
way to the body root, and the discriminee/initializer span of EVERY enclosing
match-like expression and variable-declaration-with-initializer along the
chain (not only the nearest one) is recorded under DerefRequiredSpans for the
binding; if the walk reaches the body root without finding any such enclosure,
nothing is recorded. -/
theorem C6_all_enclosing_spans_recorded (env : WalkEnv) (fuel : Nat)
    (st : MovedVariablesCtxt) (pid vid : NodeId) (cmt : Categorization)
    (hroot : unwrap_downcast_or_interior cmt = Categorization.Local vid)
    (hchain : ∀ n ∈ ancestorChain env fuel pid,
      env.find n ≠ some (HirNode.StmtDeclLocal none)) :
    non_moving_pat env fuel st pid cmt =
      Except.ok { st with spans_need_deref := st.spans_need_deref ++
        ((ancestorChain env fuel pid).filterMap
          (fun n => nodeRecordedSpan (env.find n))).map (fun s => (vid, s)) } := by
  unfold non_moving_pat
  simp only [hroot]
  rw [nonMovingWalk_characterization env fuel pid hchain]

/-- Counterexample to claim C6 as stated: for a pattern nested inside two
match expressions (discriminee spans 10 and 20) the walk does not stop at the
innermost enclosing match: it records BOTH discriminee spans for the binding,
not exactly the span of the one nearest enclosing expression. -/
theorem C6_counterexample :
    non_moving_pat env3 5 ⟨[], []⟩ 0 (Categorization.Local 4) =
      Except.ok ⟨[], [(4, 10), (4, 20)]⟩ := by
  rfl

/-- Witness for C6 (amended) at a single enclosing match with discriminee span
10. -/
theorem C6_all_enclosing_spans_recorded_witness :
    non_moving_pat envM 5 ⟨[], []⟩ 0 (Categorization.Local 4) =
      Except.ok ⟨[], [(4, 10)]⟩ :=
  C6_all_enclosing_spans_recorded envM 5 ⟨[], []⟩ 0 4 (Categorization.Local 4) rfl
    (by decide)

/-- Counterexample to claim C7 as stated: on the Vec specialization path with
recorded deref-spans the analysis does NOT proceed in a production build: the
source guards the path with assert! (lines 266 and 294), which is compiled
into every build profile (unlike debug_assert!), so the internal inconsistency
makes the pass fail in production too. -/
theorem C7_counterexample :
    suggEdits ctxW pVec (some [5]) =
      Except.error "assertion failed: deref_span.is_none()" := by
  rfl

/-- Claim C7 (amended): when the Vec (resp. String) specialization path is
taken for a flagged parameter, the planner produces a slice-of-E (resp.
string-view) type suggestion and zero dereference-insertion edits; if
deref-spans were nevertheless recorded for that binding, the assertion fires in
every build profile and the path fails instead of proceeding. -/
theorem C7_specialization_edits :
    (∀ (ctx : FnCtxt) (p : Param) (cs : List (Span × String)) (e : String),
      p.is_vec = true → p.vec_clone_spans = some cs → p.vec_elem_snippet = some e →
      suggEdits ctx p none =
        Except.ok ({ span := p.input_span, text := "&[" ++ e ++ "]" } ::
          cs.map (fun c => { span := c.1, text := c.2 : Edit })) ∧
      ∀ ds, suggEdits ctx p (some ds) =
        Except.error "assertion failed: deref_span.is_none()") ∧
    (∀ (ctx : FnCtxt) (p : Param) (cs : List (Span × String)),
      p.is_vec = false → p.is_string = true → p.string_clone_spans = some cs →
      suggEdits ctx p none =
        Except.ok ({ span := p.input_span, text := "&str" } ::
          cs.map (fun c => { span := c.1, text := c.2 : Edit })) ∧
      ∀ ds, suggEdits ctx p (some ds) =
        Except.error "assertion failed: deref_span.is_none()") := by
  constructor
  · intro ctx p cs e hvec hcs helem
    constructor
    · simp [suggEdits, hvec, hcs, helem]
    · intro ds
      simp [suggEdits, hvec, hcs, helem]
  · intro ctx p cs hvec hstr hscs
    constructor
    · rcases hc : p.vec_clone_spans with _ | vcs <;>
        rcases he : p.vec_elem_snippet with _ | ve <;>
        simp [suggEdits, hvec, hstr, hscs, hc, he]
    · intro ds
      rcases hc : p.vec_clone_spans with _ | vcs <;>
        rcases he : p.vec_elem_snippet with _ | ve <;>
        simp [suggEdits, hvec, hstr, hscs, hc, he]

/-- Witness for C7 (amended) at a concrete Vec-of-i32 parameter. -/
theorem C7_specialization_edits_witness :
    suggEdits ctxW pVec none = Except.ok [Edit.mk 1 "&[i32]"] ∧
    suggEdits ctxW pVec (some [5, 7]) =
      Except.error "assertion failed: deref_span.is_none()" :=
  ⟨(C7_specialization_edits.1 ctxW pVec [] "i32" rfl rfl rfl).1,
   (C7_specialization_edits.1 ctxW pVec [] "i32" rfl rfl rfl).2 [5, 7]⟩

theorem untouched_move_common (st : MovedVariablesCtxt) (cmt : Categorization) (b : NodeId)
    (hne : unwrap_downcast_or_interior cmt ≠ Categorization.Local b)
    (hu : untouched b st) : untouched b (move_common st cmt) := by
  unfold move_common
  cases hcat : unwrap_downcast_or_interior cmt with
  | Local vid =>
    refine ⟨?_, hu.2⟩
    intro hmem
    rcases List.mem_insert_iff.mp hmem with heq | hmem2
    · exact hne (by rw [hcat, heq])
    · exact hu.1 hmem2
  | Downcast c => exact hu
  | Interior c => exact hu
  | Other => exact hu

theorem untouched_non_moving_pat (env : WalkEnv) (fuel : Nat)
    (st st2 : MovedVariablesCtxt) (pid : NodeId) (cmt : Categorization) (b : NodeId)
    (hne : unwrap_downcast_or_interior cmt ≠ Categorization.Local b)
    (h : non_moving_pat env fuel st pid cmt = Except.ok st2)
    (hu : untouched b st) : untouched b st2 := by
  unfold non_moving_pat at h
  cases hcat : unwrap_downcast_or_interior cmt with
  | Local vid =>
    simp only [hcat] at h
    cases hw : nonMovingWalk env fuel pid with
    | ok spans =>
      simp only [hw] at h
      injection h with h2
      subst h2
      refine ⟨hu.1, ?_⟩
      intro s hmem
      rcases List.mem_append.mp hmem with h1 | h2
      · exact hu.2 s h1
      · rcases List.mem_map.mp h2 with ⟨sp, hsp, heq⟩
        have hvb : vid = b := congrArg Prod.fst heq
        exact hne (by rw [hcat, hvb])
    | error msg => simp only [hw] at h; exact Except.noConfusion h
  | Downcast c => simp only [hcat] at h; injection h with h2; subst h2; exact hu
  | Interior c => simp only [hcat] at h; injection h with h2; subst h2; exact hu
  | Other => simp only [hcat] at h; injection h with h2; subst h2; exact hu

theorem untouched_processEvent (env : WalkEnv) (fuel : Nat)
    (st st2 : MovedVariablesCtxt) (e : UsageEvent) (b : NodeId)
    (honly : targetsBinding e b → isBorrowOrMutate e)
    (h : processEvent env fuel st e = Except.ok st2)
    (hu : untouched b st) : untouched b st2 := by
  cases e with
  | consume i s cmt mode =>
    have hne : unwrap_downcast_or_interior cmt ≠ Categorization.Local b :=
      fun hc => False.elim (honly hc)
    cases mode with
    | Move => injection h with h2; subst h2; exact untouched_move_common st cmt b hne hu
    | Copy => injection h with h2; subst h2; exact hu
  | matched_pat i s cmt mode =>
    have hne : unwrap_downcast_or_interior cmt ≠ Categorization.Local b :=
      fun hc => False.elim (honly hc)
    cases mode with
    | MovingMatch => injection h with h2; subst h2; exact untouched_move_common st cmt b hne hu
    | NonBindingMatch => exact untouched_non_moving_pat env fuel st st2 i cmt b hne h hu
    | BorrowingMatch => exact untouched_non_moving_pat env fuel st st2 i cmt b hne h hu
    | CopyingMatch => exact untouched_non_moving_pat env fuel st st2 i cmt b hne h hu
  | consume_pat i s cmt mode =>
    have hne : unwrap_downcast_or_interior cmt ≠ Categorization.Local b :=
      fun hc => False.elim (honly hc)
    cases mode with
    | Move => injection h with h2; subst h2; exact untouched_move_common st cmt b hne hu
    | Copy => injection h with h2; subst h2; exact hu
  | borrow cmt => injection h with h2; subst h2; exact hu
  | mutate cmt => injection h with h2; subst h2; exact hu
  | decl_without_init i s => injection h with h2; subst h2; exact hu

theorem untouched_foldTracker (env : WalkEnv) (fuel : Nat) (b : NodeId) :
    ∀ (events : List UsageEvent) (st st2 : MovedVariablesCtxt),
    (∀ e ∈ events, targetsBinding e b → isBorrowOrMutate e) →
    List.foldlM (fun s e => processEvent env fuel s e) st events = Except.ok st2 →
    untouched b st → untouched b st2 := by
  intro events
  induction events with
  | nil => intro st st2 _ h hu; cases h; exact hu
  | cons a rest ih =>
    intro st st2 honly h hu
    rw [List.foldlM_cons] at h
    cases hstep : processEvent env fuel st a with
    | ok st1 =>
      rw [hstep] at h
      exact ih st1 st2 (fun e he => honly e (List.mem_cons_of_mem a he)) h
        (untouched_processEvent env fuel st st1 a b (honly a (List.mem_cons_self a rest)) hstep hu)
    | error msg => rw [hstep] at h; cases h

theorem lookupDerefSpans_none_of_no_entry (deref : List (NodeId × Span)) (b : NodeId)
    (h : ∀ s, (b, s) ∉ deref) : lookupDerefSpans deref b = none := by
  have hfil : deref.filter (fun q => q.1 = b) = [] := by
    apply List.filter_eq_nil_iff.mpr
    intro q hq
    simp only [decide_eq_true_eq]
    intro hqb
    refine h q.2 ?_
    rw [← hqb]
    simpa using hq
  simp only [lookupDerefSpans, hfil]
  rfl

theorem suggEdits_none_head (ctx : FnCtxt) (p : Param) :
    ∃ t es, suggEdits ctx p none =
      Except.ok ({ span := p.input_span, text := t } :: es) ∧
      t.data.head? = some '&' := by
  unfold suggEdits
  cases hv : p.is_vec <;> rcases hc : p.vec_clone_spans with _ | cs <;>
    rcases he : p.vec_elem_snippet with _ | e <;>
    cases hs : p.is_string <;> rcases hsc : p.string_clone_spans with _ | scs <;>
    exact ⟨_, _, rfl, rfl⟩

/-- Claim C3: for every analyzed function and every non-receiver by-value
parameter passing all eligibility conditions (type not Copy-like, not a
mutable reference, no whitelisted call-like/range-like bound, not
Borrow-bounded, not all-borrowable, binding mode not mutable): if the body
only borrows or mutates the parameter through references and never moves it
or matches it, a diagnostic is emitted at the parameter span whose first
suggested edit sits at that span and starts with a reference marker; and
Borrow and Mutate events cause no change to the tracker state. -/
theorem C3_borrow_only_flagged (env : WalkEnv) (fuel : Nat) (events : List UsageEvent)
    (st : MovedVariablesCtxt) (ctx : FnCtxt) (borrow : Nat) (wl : List Nat)
    (preds : List RawPred) (idx : Nat) (p : Param) (mode : BindingMode)
    (cid : NodeId) (ident : String)
    (hrun : runTracker env fuel events = Except.ok st)
    (honly : ∀ e ∈ events, targetsBinding e cid → isBorrowOrMutate e)
    (hspan : ctx.span ≠ p.input_span)
    (hpat : p.pat = PatKind.Binding mode cid ident)
    (hrecv : isSelfIdent p.pat = false)
    (hself : p.is_self = false)
    (hmutptr : p.ty_is_mutable_pointer = false)
    (hcopy : p.ty_is_copy = false)
    (hwl : wl.any (fun t => p.implements_trait_nil t) = false)
    (hborrow : implements_borrow_trait preds p.ty borrow = false)
    (hall : all_borrowable_trait preds p.ty = false)
    (hmode1 : mode ≠ BindingMode.Mutable) (hmode2 : mode ≠ BindingMode.RefMut) :
    (∃ d t es, checkParam ctx borrow wl preds st.moved_vars st.spans_need_deref idx p =
        Except.ok (ParamOutcome.flag d) ∧ d.span = p.input_span ∧
        d.edits = { span := p.input_span, text := t } :: es ∧
        t.data.head? = some '&') ∧
    (∀ (st3 : MovedVariablesCtxt) (cmt : Categorization),
      processEvent env fuel st3 (UsageEvent.borrow cmt) = Except.ok st3 ∧
      processEvent env fuel st3 (UsageEvent.mutate cmt) = Except.ok st3) := by
  have hu : untouched cid st :=
    untouched_foldTracker env fuel cid events ⟨[], []⟩ st honly hrun
      ⟨List.not_mem_nil cid, fun s => List.not_mem_nil (cid, s)⟩
  have hcont : st.moved_vars.contains cid = false := by
    cases hcv : st.moved_vars.contains cid
    · rfl
    · exact absurd (List.mem_of_elem_eq_true hcv) hu.1
  have hlook : lookupDerefSpans st.spans_need_deref cid = none :=
    lookupDerefSpans_none_of_no_entry st.spans_need_deref cid hu.2
  obtain ⟨t, es, hedits, hhead⟩ := suggEdits_none_head ctx p
  have hsd : suggDiag ctx p cid st.spans_need_deref =
      Except.ok
        { span := p.input_span,
          msg := "this argument is passed by value, but not consumed in the function body",
          copy_help := p.copy_help_span,
          edits := { span := p.input_span, text := t } :: es } := by
    unfold suggDiag
    rw [hlook, hedits]
  have hm1 : decide (mode = BindingMode.Mutable) = false := decide_eq_false hmode1
  have hm2 : decide (mode = BindingMode.RefMut) = false := decide_eq_false hmode2
  have hcp : checkParam ctx borrow wl preds st.moved_vars st.spans_need_deref idx p =
      Except.ok (ParamOutcome.flag
        { span := p.input_span,
          msg := "this argument is passed by value, but not consumed in the function body",
          copy_help := p.copy_help_span,
          edits := { span := p.input_span, text := t } :: es }) := by
    have hrecv2 : isSelfIdent (PatKind.Binding mode cid ident) = false := by
      rw [← hpat]; exact hrecv
    unfold checkParam
    rw [if_neg hspan]
    simp only [hrecv, hrecv2, Bool.and_false, Bool.false_eq_true, if_false, hpat, hself, hmutptr,
      hcopy, hwl, hborrow, hall, hcont, Bool.not_false, Bool.and_self, Bool.and_true,
      Bool.true_and, if_true, hm1, hm2, Bool.or_self, hsd]
  exact ⟨⟨_, t, es, hcp, rfl, rfl, hhead⟩, fun st3 cmt => ⟨rfl, rfl⟩⟩

/-- Witness for C3: a body whose only event is a borrow of binding 3 leaves
the tracker empty and the eligible parameter bound to 3 is flagged with a
reference edit at its span. -/
theorem C3_borrow_only_flagged_witness :
    (∃ d t es, checkParam ctxW 100 [] [] [] [] 1 pW =
        Except.ok (ParamOutcome.flag d) ∧ d.span = pW.input_span ∧
        d.edits = { span := pW.input_span, text := t } :: es ∧
        t.data.head? = some '&') ∧
    (∀ (st3 : MovedVariablesCtxt) (cmt : Categorization),
      processEvent envW 1 st3 (UsageEvent.borrow cmt) = Except.ok st3 ∧
      processEvent envW 1 st3 (UsageEvent.mutate cmt) = Except.ok st3) :=
  C3_borrow_only_flagged envW 1 [UsageEvent.borrow (Categorization.Local 3)] ⟨[], []⟩
    ctxW 100 [] [] 1 pW BindingMode.Unannotated 3 "v"
    rfl
    (fun e he => by rw [List.mem_singleton.mp he]; intro ht; trivial)
    (by decide) rfl rfl rfl rfl rfl rfl rfl rfl
    (by decide) (by decide)
